import Mathlib

/-!
Shallow embedding of `src/server/controllers/post_controller.js` from the
ArtistryBay repository: a social-media post/comment CRUD API.

The database (MongoDB via Mongoose) is modelled as three lists of records.
Identifiers and timestamps are `Nat`.  External collaborators (the `sharp`
image transcoder and the Cloudinary upload) are abstracted: the resulting
upload URL is a parameter of `addNewPost`, and whether the transcode/upload
stage was reached is recorded in the result.

Modelling notes, faithful to the documented semantics of the ODM:
  * `$addToSet` appends the value at the end of the array iff it is absent.
  * `$pull` removes every occurrence of the value.
  * `Model.findById` / `find?` returns the first matching record or nothing;
    in JS a `null` result that is then dereferenced throws, which the
    surrounding `try/catch` converts into a 500 response.
  * `populate` on an array-of-references field resolves the references in the
    stored order of the id array, dropping ids that resolve to nothing.  A
    `sort` key given at the top level of a populate spec (instead of inside
    its `options`) is not a recognised populate option and is ignored, so it
    does not reorder the populated array.
  * A JS `if (!x)` guard on a string is taken when the string is empty; on an
    array result of `find` it is never taken (arrays are truthy).
-/

/-- A post record: `Post` model.  `comments` is the ordered list of comment
ids (insertion order), `likes` the array maintained with set semantics. -/
structure Post where
  id : Nat
  caption : String
  image : String
  author : Nat
  comments : List Nat
  likes : List Nat
  createdAt : Nat
  deriving Repr, DecidableEq

/-- A comment record: `Comment` model. -/
structure Comment where
  id : Nat
  text : String
  author : Nat
  post : Nat
  createdAt : Nat
  deriving Repr, DecidableEq

/-- The slice of the `User` model this controller touches: owned posts and
the bookmark set. -/
structure User where
  id : Nat
  posts : List Nat
  bookmarks : List Nat
  deriving Repr, DecidableEq

/-- The database state. -/
structure DB where
  posts : List Post
  comments : List Comment
  users : List User
  deriving Repr, DecidableEq

/-- The JSON response envelope.  `none` in a field means the JSON object has
no such field at all; `tag` models the `type` field of bookmark responses. -/
structure Response where
  status : Nat
  success : Option Bool := none
  message : Option String := none
  error : Option String := none
  tag : Option String := none
  postsPayload : Option (List (Post × List Comment)) := none
  commentsPayload : Option (List Comment) := none
  deriving Repr, DecidableEq

/-- MongoDB `$addToSet`: append iff absent. -/
def addToSet (l : List Nat) (x : Nat) : List Nat :=
  if x ∈ l then l else l ++ [x]

/-- MongoDB `$pull`: remove every occurrence. -/
def pull (l : List Nat) (x : Nat) : List Nat :=
  l.filter (fun y => y ≠ x)

/-- Model of Post.findById. -/
def findPost (db : DB) (pid : Nat) : Option Post :=
  db.posts.find? (fun p => p.id = pid)

/-- Model of User.findById. -/
def findUser (db : DB) (uid : Nat) : Option User :=
  db.users.find? (fun u => u.id = uid)

/-- Result of `addNewPost`: the new state, the response, and whether the
transcode/upload stage (`sharp` + `cloudinary.uploader.upload`) was reached. -/
structure AddPostResult where
  db : DB
  resp : Response
  uploadCalled : Bool
  deriving Repr, DecidableEq

/-- The user-record update performed by addNewPost on success: append the
new post id to the owned-posts list of the author. -/
def appendOwnedPost (authorId newPostId : Nat) (u : User) : User :=
  if u.id = authorId then { u with posts := u.posts ++ [newPostId] } else u

/-- Handler addNewPost (lines 9-52).  `image` is the optional uploaded file,
`cloudUrl` abstracts the secure_url returned by the external upload,
`newPostId` and `now` abstract the id and timestamp the database assigns.
With no image the handler returns a bare 400 response whose JSON is only
the message "Image required" (note: no `success` field), without touching
the transcoder or storage; otherwise it creates the post and, if the author
user exists, appends the post id to the owned-posts list of the author (a
missing user is silently skipped). -/
def addNewPost (db : DB) (authorId : Nat) (caption : String)
    (image : Option String) (cloudUrl : String) (newPostId now : Nat) :
    AddPostResult :=
  match image with
  | none => ⟨db, { status := 400, message := some "Image required" }, false⟩
  | some _ =>
    let post : Post :=
      { id := newPostId, caption := caption, image := cloudUrl,
        author := authorId, comments := [], likes := [], createdAt := now }
    let db1 : DB := { db with posts := db.posts ++ [post] }
    let db2 : DB :=
      match findUser db1 authorId with
      | none => db1
      | some _ =>
        { db1 with users := db1.users.map (appendOwnedPost authorId newPostId) }
    ⟨db2, { status := 201, success := some true,
            message := some "New post added" }, true⟩

/-- Insert a post into a list already sorted by `createdAt` descending. -/
def insertByCreatedDesc (p : Post) : List Post → List Post
  | [] => [p]
  | q :: qs =>
    if p.createdAt ≥ q.createdAt then p :: q :: qs
    else q :: insertByCreatedDesc p qs

/-- Model of sorting by createdAt descending: newest first. -/
def sortByCreatedDesc : List Post → List Post
  | [] => []
  | p :: ps => insertByCreatedDesc p (sortByCreatedDesc ps)

/-- Model of populating the comments path of a post: resolve the stored
comment-id array in its stored order.  In the source (lines 59-66) the sort
key sits at the top level of the populate spec rather than inside its
`options`, so the ODM ignores it and no reordering takes place. -/
def populateComments (db : DB) (p : Post) : List Comment :=
  p.comments.filterMap (fun cid => db.comments.find? (fun c => c.id = cid))

/-- The posts payload of getAllPost (lines 55-78): all posts sorted by
creation time descending, each paired with its populated comments. -/
def getAllPostPayload (db : DB) : List (Post × List Comment) :=
  (sortByCreatedDesc db.posts).map (fun p => (p, populateComments db p))

/-- Handler getAllPost. -/
def getAllPost (db : DB) : DB × Response :=
  (db, { status := 200, success := some true,
         postsPayload := some (getAllPostPayload db) })

/-- Handler getUserPost (lines 81-106): same shape, filtered to one author. -/
def getUserPost (db : DB) (authorId : Nat) : DB × Response :=
  let payload :=
    (sortByCreatedDesc (db.posts.filter (fun p => p.author = authorId))).map
      (fun p => (p, populateComments db p))
  (db, { status := 200, success := some true, postsPayload := some payload })

/-- The store update performed by the likePost `$addToSet`: on the post
with the given id, add the user id to its likes iff absent. -/
def likeUpdate (userId postId : Nat) (p : Post) : Post :=
  if p.id = postId then { p with likes := addToSet p.likes userId } else p

/-- The store update performed by the dislikePost `$pull`: on the post with
the given id, remove every occurrence of the user id from its likes. -/
def dislikeUpdate (userId postId : Nat) (p : Post) : Post :=
  if p.id = postId then { p with likes := pull p.likes userId } else p

/-- Handler likePost (lines 109-127): 404 if the post is missing, else
`$addToSet` the requester id into the likes of the post. -/
def likePost (db : DB) (userId postId : Nat) : DB × Response :=
  match findPost db postId with
  | none =>
    (db, { status := 404, success := some false,
           message := some "Post not found" })
  | some _ =>
    ({ db with posts := db.posts.map (likeUpdate userId postId) },
     { status := 200, success := some true, message := some "Post liked" })

/-- Handler dislikePost (lines 130-148): 404 if the post is missing, else
`$pull` the requester id from the likes of the post. -/
def dislikePost (db : DB) (userId postId : Nat) : DB × Response :=
  match findPost db postId with
  | none =>
    (db, { status := 404, success := some false,
           message := some "Post not found" })
  | some _ =>
    ({ db with posts := db.posts.map (dislikeUpdate userId postId) },
     { status := 200, success := some true, message := some "Post disliked" })

/-- The store update performed by addComment on success: append the new
comment id to the comment list of the post with the given id. -/
def pushComment (newCommentId postId : Nat) (p : Post) : Post :=
  if p.id = postId then { p with comments := p.comments ++ [newCommentId] } else p

/-- Handler addComment (lines 151-179).  Empty text gives 400.  Otherwise the
comment is created and persisted BEFORE the post lookup result is used;
when the post is missing, `post.comments.push` dereferences `null`, the
thrown `TypeError` is caught, and the handler answers 500 - but the comment
document already exists in the store. -/
def addComment (db : DB) (userId postId : Nat) (text : String)
    (newCommentId now : Nat) : DB × Response :=
  if text = "" then
    (db, { status := 400, success := some false,
           message := some "Text is required" })
  else
    let comment : Comment :=
      { id := newCommentId, text := text, author := userId,
        post := postId, createdAt := now }
    let db1 : DB := { db with comments := db.comments ++ [comment] }
    match findPost db postId with
    | none =>
      (db1, { status := 500, success := some false,
              message := some "comment failed.",
              error := some "Cannot read properties of null" })
    | some _ =>
      let db2 : DB := { db1 with posts := db1.posts.map (pushComment newCommentId postId) }
      (db2, { status := 201, success := some true,
              message := some "Comment added" })

/-- Handler getCommentsOfPost (lines 182-197): all comments whose post reference
equals the given id.  The `if (!comments)` guard is never taken since
`find` yields an array (truthy even when empty), so the response is always
200 with the (possibly empty) collection. -/
def getCommentsOfPost (db : DB) (postId : Nat) : DB × Response :=
  let comments := db.comments.filter (fun c => c.post = postId)
  (db, { status := 200, success := some true,
         commentsPayload := some comments })

/-- The user-record update performed by deletePost: filter the deleted post
id out of the owned-posts list of the author. -/
def removeOwnedPost (requesterId postId : Nat) (u : User) : User :=
  if u.id = requesterId then { u with posts := u.posts.filter (fun i => i ≠ postId) }
  else u

/-- Handler deletePost (lines 200-227).  404 if the post is missing; a bare
403 response whose JSON is only the message "Unauthorized" (no `success`
field) if the requester is not the author.  Otherwise: delete the post,
filter the post id out of the owned-posts list of the author, and
cascade-delete the comments referencing the post.  If the author user
record is missing, the field access on the `null` user throws after the
post was already deleted: caught, 500. -/
def deletePost (db : DB) (requesterId postId : Nat) : DB × Response :=
  match findPost db postId with
  | none =>
    (db, { status := 404, success := some false,
           message := some "Post not found" })
  | some post =>
    if post.author ≠ requesterId then
      (db, { status := 403, message := some "Unauthorized" })
    else
      let db1 : DB := { db with posts := db.posts.filter (fun p => p.id ≠ postId) }
      match findUser db1 requesterId with
      | none =>
        (db1, { status := 500, success := some false,
                message := some "deletePost failed.",
                error := some "Cannot read properties of null" })
      | some _ =>
        let db2 : DB := { db1 with users := db1.users.map (removeOwnedPost requesterId postId) }
        let db3 : DB :=
          { db2 with comments := db2.comments.filter (fun c => c.post ≠ postId) }
        (db3, { status := 200, success := some true,
                message := some "Post deleted" })

/-- The user-record update performed by the bookmarkPost `$pull`. -/
def removeBookmark (userId pid : Nat) (u : User) : User :=
  if u.id = userId then { u with bookmarks := pull u.bookmarks pid } else u

/-- The user-record update performed by the bookmarkPost `$addToSet`. -/
def addBookmark (userId pid : Nat) (u : User) : User :=
  if u.id = userId then { u with bookmarks := addToSet u.bookmarks pid } else u

/-- Handler bookmarkPost (lines 230-254).  404 if the post is missing.  If
the user record is missing, the field access on the `null` user throws:
caught, 500.  Otherwise a strict toggle on the bookmark set: `$pull` with
tag "unsaved" when present, `$addToSet` with tag "saved" when absent. -/
def bookmarkPost (db : DB) (userId postId : Nat) : DB × Response :=
  match findPost db postId with
  | none =>
    (db, { status := 404, success := some false,
           message := some "Post not found" })
  | some post =>
    match findUser db userId with
    | none =>
      (db, { status := 500, success := some false,
             message := some "bookmarkPost failed.",
             error := some "Cannot read properties of null" })
    | some user =>
      if post.id ∈ user.bookmarks then
        ({ db with users := db.users.map (removeBookmark userId post.id) },
         { status := 200, success := some true, tag := some "unsaved",
           message := some "Post removed from bookmark" })
      else
        ({ db with users := db.users.map (addBookmark userId post.id) },
         { status := 200, success := some true, tag := some "saved",
           message := some "Post bookmarked" })

/-- An inbound request: one constructor per handler of the controller. -/
inductive Request where
  | addPost (authorId : Nat) (caption : String) (image : Option String)
      (cloudUrl : String) (newPostId now : Nat)
  | getAll
  | getUser (authorId : Nat)
  | like (userId postId : Nat)
  | dislike (userId postId : Nat)
  | comment (userId postId : Nat) (text : String) (newCommentId now : Nat)
  | getComments (postId : Nat)
  | delete (requesterId postId : Nat)
  | bookmark (userId postId : Nat)
  deriving Repr, DecidableEq

/-- Dispatch a request to its handler. -/
def handle (db : DB) : Request → DB × Response
  | .addPost a c i u n t =>
    let r := addNewPost db a c i u n t
    (r.db, r.resp)
  | .getAll => getAllPost db
  | .getUser a => getUserPost db a
  | .like u p => likePost db u p
  | .dislike u p => dislikePost db u p
  | .comment u p t n w => addComment db u p t n w
  | .getComments p => getCommentsOfPost db p
  | .delete r p => deletePost db r p
  | .bookmark u p => bookmarkPost db u p

/-! ### Concrete example states used by witnesses and counterexamples -/

/-- A comment created at time 1 on post 1. -/
def exC1 : Comment :=
  { id := 1, text := "first", author := 2, post := 1, createdAt := 1 }

/-- A comment created at time 2 on post 1. -/
def exC2 : Comment :=
  { id := 2, text := "second", author := 2, post := 1, createdAt := 2 }

/-- A post authored by user 1, created at time 10, with comments stored in
insertion order (chronological ascending). -/
def exPost1 : Post :=
  { id := 1, caption := "hello", image := "http://img/1.jpg", author := 1,
    comments := [1, 2], likes := [], createdAt := 10 }

/-- A newer post authored by user 2, created at time 20, no comments. -/
def exPost2 : Post :=
  { id := 2, caption := "later", image := "http://img/2.jpg", author := 2,
    comments := [], likes := [3], createdAt := 20 }

/-- User 1: owns post 1, no bookmarks. -/
def exUser1 : User := { id := 1, posts := [1], bookmarks := [] }

/-- User 2: owns post 2, no bookmarks. -/
def exUser2 : User := { id := 2, posts := [2], bookmarks := [] }

/-- An example database with two posts, two comments on post 1, two users. -/
def exDB : DB :=
  { posts := [exPost1, exPost2], comments := [exC1, exC2],
    users := [exUser1, exUser2] }

/-! ### Helper lemmas -/

/-- The element found by `findPost` carries the looked-up id. -/
theorem findPost_id {db : DB} {pid : Nat} {P : Post}
    (h : findPost db pid = some P) : P.id = pid := by
  have := List.find?_some h
  simpa using this

/-- Mapping an id-preserving update over the posts commutes with lookup. -/
theorem find?_post_map (l : List Post) (pid : Nat) (g : Post → Post)
    (hg : ∀ p, (g p).id = p.id) :
    (l.map g).find? (fun p => p.id = pid) =
      (l.find? (fun p => p.id = pid)).map g := by
  rw [List.find?_map]
  have h : ((fun p => decide (p.id = pid)) ∘ g) = (fun p => decide (p.id = pid)) := by
    funext p
    simp [Function.comp, hg]
  rw [h]

/-- Mapping an id-preserving update over the users commutes with lookup. -/
theorem find?_user_map (l : List User) (uid : Nat) (g : User → User)
    (hg : ∀ u, (g u).id = u.id) :
    (l.map g).find? (fun u => u.id = uid) =
      (l.find? (fun u => u.id = uid)).map g := by
  rw [List.find?_map]
  have h : ((fun u => decide (u.id = uid)) ∘ g) = (fun u => decide (u.id = uid)) := by
    funext u
    simp [Function.comp, hg]
  rw [h]

/-- After `$addToSet`, the element is a member. -/
theorem mem_addToSet_self (l : List Nat) (x : Nat) : x ∈ addToSet l x := by
  unfold addToSet
  split
  · assumption
  · simp

/-- MongoDB `$addToSet` is idempotent. -/
theorem addToSet_idem (l : List Nat) (x : Nat) :
    addToSet (addToSet l x) x = addToSet l x := by
  unfold addToSet
  split
  · simp_all
  · simp

/-- Pulling an absent element is the identity. -/
theorem pull_of_not_mem {l : List Nat} {x : Nat} (h : x ∉ l) : pull l x = l := by
  unfold pull
  rw [List.filter_eq_self]
  intro a ha
  simp only [ne_eq, decide_eq_true_eq]
  exact fun hax => h (hax ▸ ha)

/-- Pulling the just-appended element restores a list not containing it. -/
theorem pull_append_self {l : List Nat} {x : Nat} (h : x ∉ l) :
    pull (l ++ [x]) x = l := by
  unfold pull
  rw [List.filter_append]
  have h1 : l.filter (fun y => y ≠ x) = l := pull_of_not_mem h
  have h2 : [x].filter (fun y => decide (y ≠ x)) = [] := by simp
  rw [h1, h2, List.append_nil]

/-! ### Claims -/

/-- C9.  An add-post request carrying no image fails with HTTP 400, the
transcode/upload stage is never reached, and the database (in particular
the post store) is unchanged. -/
theorem addNewPost_no_image (db : DB) (authorId : Nat)
    (caption cloudUrl : String) (newPostId now : Nat) :
    (addNewPost db authorId caption none cloudUrl newPostId now).resp.status = 400
    ∧ (addNewPost db authorId caption none cloudUrl newPostId now).uploadCalled = false
    ∧ (addNewPost db authorId caption none cloudUrl newPostId now).db = db :=
  ⟨rfl, rfl, rfl⟩

/-- C1 counterexample.  An add-comment request with non-empty text for a
post id (99) matching no post does NOT produce a 404: the missing post is
dereferenced as null, the error is caught, and the response is a 500. -/
theorem addComment_missing_post_not_404 :
    (addComment exDB 1 99 "hello" 7 30).2.status ≠ 404
    ∧ (addComment exDB 1 99 "hello" 7 30).2.status = 500 := by
  constructor
  · decide
  · decide

/-- C1 amended.  An add-comment request with non-empty text whose post id
matches no existing post fails with an unhandled-error 500 response with
success false (the null post dereference is caught by the generic handler),
not with a 404. -/
theorem addComment_missing_post_500 (db : DB) (userId postId : Nat)
    (text : String) (newCommentId now : Nat)
    (htext : ¬ text = "") (hmiss : findPost db postId = none) :
    (addComment db userId postId text newCommentId now).2.status = 500
    ∧ (addComment db userId postId text newCommentId now).2.success = some false := by
  constructor <;> simp [addComment, htext, hmiss]

/-- C1 witness. -/
theorem addComment_missing_post_500_witness :
    (addComment exDB 1 99 "hello" 7 30).2.status = 500
    ∧ (addComment exDB 1 99 "hello" 7 30).2.success = some false :=
  addComment_missing_post_500 exDB 1 99 "hello" 7 30 (by decide) (by decide)

/-- C10.  An add-comment request with non-empty text whose post id matches
no existing post still creates and persists the comment document (appended
to the comment store, referencing the missing post) even though the
response reports failure: the operation is not atomic on this error path. -/
theorem addComment_missing_post_persists (db : DB) (userId postId : Nat)
    (text : String) (newCommentId now : Nat)
    (htext : ¬ text = "") (hmiss : findPost db postId = none) :
    (addComment db userId postId text newCommentId now).1.comments =
      db.comments ++ [{ id := newCommentId, text := text, author := userId,
                        post := postId, createdAt := now }]
    ∧ (addComment db userId postId text newCommentId now).2.success = some false := by
  constructor <;> simp [addComment, htext, hmiss]

/-- C10 witness. -/
theorem addComment_missing_post_persists_witness :
    (addComment exDB 1 50 "orphan" 9 40).1.comments =
      exDB.comments ++ [{ id := 9, text := "orphan", author := 1,
                          post := 50, createdAt := 40 }]
    ∧ (addComment exDB 1 50 "orphan" 9 40).2.success = some false :=
  addComment_missing_post_persists exDB 1 50 "orphan" 9 40 (by decide) (by decide)


/-- The likePost store update preserves ids. -/
theorem likeUpdate_id (userId postId : Nat) (p : Post) :
    (likeUpdate userId postId p).id = p.id := by
  unfold likeUpdate
  split <;> rfl

/-- The dislikePost store update preserves ids. -/
theorem dislikeUpdate_id (userId postId : Nat) (p : Post) :
    (dislikeUpdate userId postId p).id = p.id := by
  unfold dislikeUpdate
  split <;> rfl

/-- The likePost store update is idempotent (because `$addToSet` is). -/
theorem likeUpdate_idem (userId postId : Nat) (p : Post) :
    likeUpdate userId postId (likeUpdate userId postId p)
      = likeUpdate userId postId p := by
  unfold likeUpdate
  by_cases h : p.id = postId
  · simp [h, addToSet_idem]
  · simp [h]

/-- `$addToSet` keeps at-most-once membership. -/
theorem count_addToSet_le_one {l : List Nat} {x : Nat} (h : l.count x ≤ 1) :
    (addToSet l x).count x ≤ 1 := by
  unfold addToSet
  split
  · exact h
  · rename_i hx
    rw [List.count_append]
    have h0 : l.count x = 0 := List.count_eq_zero.mpr hx
    simp [h0]

/-- Looking a post up after an id-preserving map of the post store. -/
theorem findPost_map (db : DB) (pid : Nat) (g : Post → Post)
    (hg : ∀ p, (g p).id = p.id) :
    findPost { db with posts := db.posts.map g } pid =
      (findPost db pid).map g :=
  find?_post_map db.posts pid g hg

/-- Looking a user up after an id-preserving map of the user store. -/
theorem findUser_map (db : DB) (uid : Nat) (g : User → User)
    (hg : ∀ u, (g u).id = u.id) :
    findUser { db with users := db.users.map g } uid =
      (findUser db uid).map g :=
  find?_user_map db.users uid g hg

/-- Unfolding likePost when the post exists. -/
theorem likePost_found {db : DB} {postId : Nat} {P : Post} (userId : Nat)
    (hP : findPost db postId = some P) :
    likePost db userId postId =
      ({ db with posts := db.posts.map (likeUpdate userId postId) },
       { status := 200, success := some true, message := some "Post liked" }) := by
  unfold likePost
  rw [hP]

/-- Unfolding dislikePost when the post exists. -/
theorem dislikePost_found {db : DB} {postId : Nat} {P : Post} (userId : Nat)
    (hP : findPost db postId = some P) :
    dislikePost db userId postId =
      ({ db with posts := db.posts.map (dislikeUpdate userId postId) },
       { status := 200, success := some true, message := some "Post disliked" }) := by
  unfold dislikePost
  rw [hP]

/-- C8.  A dislike by a user whose id is not in the likes of the post
succeeds with 200 and leaves the post record (in particular its likes set)
unchanged. -/
theorem dislikePost_not_liked (db : DB) (userId postId : Nat) (P : Post)
    (hP : findPost db postId = some P) (hnl : userId ∉ P.likes) :
    (dislikePost db userId postId).2.status = 200
    ∧ (dislikePost db userId postId).2.success = some true
    ∧ findPost (dislikePost db userId postId).1 postId = some P := by
  have hid : P.id = postId := findPost_id hP
  have h1 := dislikePost_found userId hP
  refine ⟨by rw [h1], by rw [h1], ?_⟩
  rw [h1]
  dsimp only
  rw [findPost_map db postId (dislikeUpdate userId postId)
        (dislikeUpdate_id userId postId), hP, Option.map_some']
  unfold dislikeUpdate
  rw [if_pos hid, pull_of_not_mem hnl]

/-- C8 witness. -/
theorem dislikePost_not_liked_witness :
    (dislikePost exDB 7 1).2.status = 200
    ∧ (dislikePost exDB 7 1).2.success = some true
    ∧ findPost (dislikePost exDB 7 1).1 1 = some exPost1 :=
  dislikePost_not_liked exDB 7 1 exPost1 (by decide) (by decide)

/-- C3.  A delete-post request for an existing post by a requester who is
not its author returns the 403 "Unauthorized" response and leaves the whole
database (post store, comment store, users) unchanged. -/
theorem deletePost_non_author (db : DB) (requesterId postId : Nat) (P : Post)
    (hP : findPost db postId = some P) (hne : P.author ≠ requesterId) :
    deletePost db requesterId postId =
      (db, { status := 403, message := some "Unauthorized" }) := by
  unfold deletePost
  rw [hP]
  dsimp only
  rw [if_pos hne]

/-- C3 witness. -/
theorem deletePost_non_author_witness :
    deletePost exDB 2 1 =
      (exDB, { status := 403, message := some "Unauthorized" }) :=
  deletePost_non_author exDB 2 1 exPost1 (by decide) (by decide)

/-- C7.  Liking an existing post twice by the same user produces exactly the
state produced by liking it once (so the likes set and its size are
unchanged by the second like), and after liking, the id of the user appears
at most once in the likes of the post (assuming the at-most-once store
invariant held before). -/
theorem likePost_idempotent (db : DB) (userId postId : Nat) (P : Post)
    (hP : findPost db postId = some P) (hcount : P.likes.count userId ≤ 1) :
    (likePost (likePost db userId postId).1 userId postId).1
        = (likePost db userId postId).1
    ∧ ∃ Q, findPost (likePost db userId postId).1 postId = some Q
        ∧ Q.likes.count userId ≤ 1 := by
  have hid : P.id = postId := findPost_id hP
  have h1 := likePost_found userId hP
  have hfind1 : findPost { db with posts := db.posts.map (likeUpdate userId postId) }
      postId = some (likeUpdate userId postId P) := by
    rw [findPost_map db postId (likeUpdate userId postId)
          (likeUpdate_id userId postId), hP, Option.map_some']
  have h2 := likePost_found userId hfind1
  constructor
  · rw [h1]
    dsimp only
    rw [h2]
    dsimp only
    congr 1
    rw [List.map_map]
    have hgg : likeUpdate userId postId ∘ likeUpdate userId postId
        = likeUpdate userId postId :=
      funext (likeUpdate_idem userId postId)
    rw [hgg]
  · refine ⟨likeUpdate userId postId P, ?_, ?_⟩
    · rw [h1]
      dsimp only
      exact hfind1
    · unfold likeUpdate
      rw [if_pos hid]
      exact count_addToSet_le_one hcount

/-- C7 witness. -/
theorem likePost_idempotent_witness :
    (likePost (likePost exDB 5 1).1 5 1).1 = (likePost exDB 5 1).1
    ∧ ∃ Q, findPost (likePost exDB 5 1).1 1 = some Q
        ∧ Q.likes.count 5 ≤ 1 :=
  likePost_idempotent exDB 5 1 exPost1 (by decide) (by decide)

/-- The element found by `findUser` carries the looked-up id. -/
theorem findUser_id {db : DB} {uid : Nat} {u : User}
    (h : findUser db uid = some u) : u.id = uid := by
  have := List.find?_some h
  simpa using this

/-- The addNewPost user update preserves ids. -/
theorem appendOwnedPost_id (authorId newPostId : Nat) (u : User) :
    (appendOwnedPost authorId newPostId u).id = u.id := by
  unfold appendOwnedPost
  split <;> rfl

/-- The deletePost user update preserves ids. -/
theorem removeOwnedPost_id (requesterId postId : Nat) (u : User) :
    (removeOwnedPost requesterId postId u).id = u.id := by
  unfold removeOwnedPost
  split <;> rfl

/-- The bookmark-add user update preserves ids. -/
theorem addBookmark_id (userId pid : Nat) (u : User) :
    (addBookmark userId pid u).id = u.id := by
  unfold addBookmark
  split <;> rfl

/-- The bookmark-remove user update preserves ids. -/
theorem removeBookmark_id (userId pid : Nat) (u : User) :
    (removeBookmark userId pid u).id = u.id := by
  unfold removeBookmark
  split <;> rfl

/-- Unfolding deletePost when the post exists, the requester is its author,
and the author user record exists: the post is removed, the comments
referencing it are removed, and the owned-posts lists are filtered. -/
theorem deletePost_author_eq {db : DB} {postId : Nat} {P : Post} {u : User}
    (hP : findPost db postId = some P)
    (hu : findUser db P.author = some u) :
    deletePost db P.author postId =
      ({ posts := db.posts.filter (fun p => p.id ≠ postId),
         comments := db.comments.filter (fun c => c.post ≠ postId),
         users := db.users.map (removeOwnedPost P.author postId) },
       { status := 200, success := some true,
         message := some "Post deleted" }) := by
  have hu1 : findUser { db with posts := db.posts.filter (fun p => p.id ≠ postId) }
      P.author = some u := hu
  unfold deletePost
  rw [hP]
  dsimp only
  rw [if_neg (by simp)]
  rw [hu1]

/-- C2.  A delete-post request for an existing post by its author (whose
user record exists) succeeds with 200, and afterwards no post with that id
remains, no comment referencing that post id remains, and the post id is
gone from the owned-posts list of every user record with the author id. -/
theorem deletePost_by_author (db : DB) (postId : Nat) (P : Post) (u : User)
    (hP : findPost db postId = some P)
    (hu : findUser db P.author = some u) :
    (deletePost db P.author postId).2.status = 200
    ∧ (deletePost db P.author postId).2.success = some true
    ∧ (∀ q ∈ (deletePost db P.author postId).1.posts, q.id ≠ postId)
    ∧ (∀ c ∈ (deletePost db P.author postId).1.comments, c.post ≠ postId)
    ∧ (∀ v ∈ (deletePost db P.author postId).1.users,
         v.id = P.author → postId ∉ v.posts) := by
  rw [deletePost_author_eq hP hu]
  refine ⟨rfl, rfl, ?_, ?_, ?_⟩
  · intro q hq
    have := (List.mem_filter.mp hq).2
    simpa using this
  · intro c hc
    have := (List.mem_filter.mp hc).2
    simpa using this
  · intro v hv hvid
    rw [List.mem_map] at hv
    obtain ⟨w, hw, rfl⟩ := hv
    unfold removeOwnedPost at hvid ⊢
    by_cases h : w.id = P.author
    · rw [if_pos h]
      simp
    · rw [if_neg h] at hvid
      exact absurd hvid h

/-- C2 witness. -/
theorem deletePost_by_author_witness :
    (deletePost exDB 1 1).2.status = 200
    ∧ (deletePost exDB 1 1).2.success = some true
    ∧ (∀ q ∈ (deletePost exDB 1 1).1.posts, q.id ≠ 1)
    ∧ (∀ c ∈ (deletePost exDB 1 1).1.comments, c.post ≠ 1)
    ∧ (∀ v ∈ (deletePost exDB 1 1).1.users, v.id = 1 → 1 ∉ v.posts) :=
  deletePost_by_author exDB 1 exPost1 exUser1 (by decide) (by decide)

/-- Unfolding bookmarkPost in the add ("saved") case. -/
theorem bookmarkPost_save_eq {db : DB} {userId postId : Nat} {P : Post} {u : User}
    (hP : findPost db postId = some P)
    (hu : findUser db userId = some u)
    (hnb : P.id ∉ u.bookmarks) :
    bookmarkPost db userId postId =
      ({ db with users := db.users.map (addBookmark userId P.id) },
       { status := 200, success := some true, tag := some "saved",
         message := some "Post bookmarked" }) := by
  unfold bookmarkPost
  rw [hP]
  dsimp only
  rw [hu]
  dsimp only
  rw [if_neg hnb]

/-- Unfolding bookmarkPost in the remove ("unsaved") case. -/
theorem bookmarkPost_unsave_eq {db : DB} {userId postId : Nat} {P : Post} {u : User}
    (hP : findPost db postId = some P)
    (hu : findUser db userId = some u)
    (hb : P.id ∈ u.bookmarks) :
    bookmarkPost db userId postId =
      ({ db with users := db.users.map (removeBookmark userId P.id) },
       { status := 200, success := some true, tag := some "unsaved",
         message := some "Post removed from bookmark" }) := by
  unfold bookmarkPost
  rw [hP]
  dsimp only
  rw [hu]
  dsimp only
  rw [if_pos hb]

/-- C6.  For a user and an existing post not in the bookmark set of that
user, two consecutive bookmark toggles return tag "saved" then tag
"unsaved", and the record of the toggling user afterwards equals its
initial value (in particular its bookmark set is restored). -/
theorem bookmarkPost_double_toggle (db : DB) (userId postId : Nat)
    (P : Post) (u : User)
    (hP : findPost db postId = some P)
    (hu : findUser db userId = some u)
    (hnb : postId ∉ u.bookmarks) :
    (bookmarkPost db userId postId).2.tag = some "saved"
    ∧ (bookmarkPost (bookmarkPost db userId postId).1 userId postId).2.tag
        = some "unsaved"
    ∧ findUser (bookmarkPost (bookmarkPost db userId postId).1 userId postId).1
        userId = some u := by
  have hid : P.id = postId := findPost_id hP
  have huid : u.id = userId := findUser_id hu
  have hnb' : P.id ∉ u.bookmarks := by rw [hid]; exact hnb
  have h1 := bookmarkPost_save_eq hP hu hnb'
  have hP1 : findPost { db with users := db.users.map (addBookmark userId P.id) }
      postId = some P := hP
  have hu1 : findUser { db with users := db.users.map (addBookmark userId P.id) }
      userId = some (addBookmark userId P.id u) := by
    rw [findUser_map db userId (addBookmark userId P.id)
          (addBookmark_id userId P.id), hu, Option.map_some']
  have haddu : addBookmark userId P.id u = { u with bookmarks := u.bookmarks ++ [P.id] } := by
    unfold addBookmark
    rw [if_pos huid]
    unfold addToSet
    rw [if_neg hnb']
  have hmem : P.id ∈ (addBookmark userId P.id u).bookmarks := by
    rw [haddu]
    simp
  have h2 := bookmarkPost_unsave_eq hP1 hu1 hmem
  refine ⟨by rw [h1], ?_, ?_⟩
  · rw [h1]
    dsimp only
    rw [h2]
  · rw [h1]
    dsimp only
    rw [h2]
    dsimp only
    show ((db.users.map (addBookmark userId P.id)).map
        (removeBookmark userId P.id)).find? (fun v => v.id = userId) = some u
    rw [find?_user_map _ userId _ (removeBookmark_id userId P.id)]
    rw [find?_user_map _ userId _ (addBookmark_id userId P.id)]
    have hu' : db.users.find? (fun v => v.id = userId) = some u := hu
    rw [hu', Option.map_some', Option.map_some']
    rw [haddu]
    unfold removeBookmark
    dsimp only
    rw [if_pos huid, pull_append_self hnb']

/-- C6 witness. -/
theorem bookmarkPost_double_toggle_witness :
    (bookmarkPost exDB 2 1).2.tag = some "saved"
    ∧ (bookmarkPost (bookmarkPost exDB 2 1).1 2 1).2.tag = some "unsaved"
    ∧ findUser (bookmarkPost (bookmarkPost exDB 2 1).1 2 1).1 2 = some exUser2 :=
  bookmarkPost_double_toggle exDB 2 1 exPost1 exUser2
    (by decide) (by decide) (by decide)

/-- C5 counterexample.  The 403 response of deletePost (line 209 of the
source) carries no `success` field at all: a delete request by a
non-author (user 2 deleting post 1 of user 1) refutes the claim that every
response contains a boolean `success` field. -/
theorem handle_delete_403_no_success_field :
    (handle exDB (Request.delete 2 1)).2.success = none
    ∧ (handle exDB (Request.delete 2 1)).2.status = 403 := by
  constructor
  · decide
  · decide

/-- C5 amended.  Every response of every operation carries a boolean
`success` field, except the 400 "Image required" response of addNewPost
(line 15) and the 403 "Unauthorized" response of deletePost (line 209),
whose JSON bodies consist of the message alone. -/
theorem handle_response_envelope (db : DB) (r : Request) :
    (∃ b, (handle db r).2.success = some b)
    ∨ (handle db r).2 = { status := 400, message := some "Image required" }
    ∨ (handle db r).2 = { status := 403, message := some "Unauthorized" } := by
  cases r with
  | addPost a c i u n t =>
    cases i with
    | none => exact Or.inr (Or.inl rfl)
    | some s => exact Or.inl ⟨true, rfl⟩
  | getAll => exact Or.inl ⟨true, rfl⟩
  | getUser a => exact Or.inl ⟨true, rfl⟩
  | like u p =>
    simp only [handle, likePost]
    split
    · exact Or.inl ⟨false, rfl⟩
    · exact Or.inl ⟨true, rfl⟩
  | dislike u p =>
    simp only [handle, dislikePost]
    split
    · exact Or.inl ⟨false, rfl⟩
    · exact Or.inl ⟨true, rfl⟩
  | comment u p t n w =>
    simp only [handle, addComment]
    split
    · exact Or.inl ⟨false, rfl⟩
    · split
      · exact Or.inl ⟨false, rfl⟩
      · exact Or.inl ⟨true, rfl⟩
  | getComments p => exact Or.inl ⟨true, rfl⟩
  | delete rq p =>
    simp only [handle, deletePost]
    split
    · exact Or.inl ⟨false, rfl⟩
    · split
      · exact Or.inr (Or.inr rfl)
      · split
        · exact Or.inl ⟨false, rfl⟩
        · exact Or.inl ⟨true, rfl⟩
  | bookmark u p =>
    simp only [handle, bookmarkPost]
    split
    · exact Or.inl ⟨false, rfl⟩
    · split
      · exact Or.inl ⟨false, rfl⟩
      · split
        · exact Or.inl ⟨true, rfl⟩
        · exact Or.inl ⟨true, rfl⟩

/-- C4 divergence, evaluated at a concrete store.  The list-all-posts
payload on `exDB` returns the posts newest-first (`exPost2`, created at 20,
before `exPost1`, created at 10) — but the comments attached to `exPost1`
come out in stored insertion order `[exC1, exC2]`, i.e. OLDEST first
(createdAt 1 before createdAt 2), because the sort directive for comments
sits at the wrong level of the populate spec and is ignored, contradicting
the claimed newest-first comment order (and the inline source comment
"newest comments first" at line 61). -/
theorem getAllPost_comment_order_divergence :
    getAllPostPayload exDB = [(exPost2, []), (exPost1, [exC1, exC2])]
    ∧ exC1.createdAt < exC2.createdAt := by
  constructor
  · decide
  · decide
